import Mathlib

/-!
Verification of the procedural-terrain-simulator settings/reconciliation layer
(src/web/utils.ts, src/web/constants.ts, src/unnamed/part_000) and of its GPU
kernels (src/shaders/terrain.wgsl and the particle compute shader).

Settings records and the reconciliation logic are embedded over ℚ (JavaScript
numbers idealized as exact rationals); the slider transforms and the GPU
kernels, which use fractional powers, square roots and trigonometry, are
embedded over ℝ.
-/

namespace PTS

/-- RGB color with components in the 0..1 range, the TypeScript
`[number, number, number]` triples. -/
abbrev Rgb := ℚ × ℚ × ℚ

/-- RGBA color, the TypeScript `[number, number, number, number]` quadruples. -/
abbrev Rgba := ℚ × ℚ × ℚ × ℚ

/-- Comparison tolerance for color equality (src/web/constants.ts
COLOR_EPSILON = 0.005, written as the equal fraction 1/200 so that kernel
evaluation reduces). -/
def COLOR_EPSILON : ℚ := 1 / 200

/-- Comparison tolerance for number equality (src/web/constants.ts
NUMBER_EPSILON = 0.0001 = 1/10000). -/
def NUMBER_EPSILON : ℚ := 1 / 10000

/-- JavaScript Math.round: round half toward positive infinity. -/
def jsRound (q : ℚ) : ℤ := ⌊q + 1/2⌋

/-- Hex digit character for a value below 16; JavaScript Number.toString(16)
produces lowercase digits ('0' is code 48, 'a' is code 97). -/
def hexDigitChar (n : ℕ) : Char :=
  if n < 10 then Char.ofNat (48 + n) else Char.ofNat (87 + n)

/-- Digits of a natural number in base 16, most significant first, as produced
by JavaScript Number.toString(16) on a nonnegative integer. -/
def natToHexDigits (n : ℕ) : List Char :=
  if _h : n < 16 then [hexDigitChar n]
  else natToHexDigits (n / 16) ++ [hexDigitChar (n % 16)]
decreasing_by
  exact Nat.div_lt_self (by omega) (by omega)

/-- JavaScript String.padStart(2, "0") on a digit list. -/
def padStart2 (l : List Char) : List Char :=
  if l.length < 2 then List.replicate (2 - l.length) '0' ++ l else l

/-- The `toHex` helper inside rgbToHex (src/web/utils.ts):
Math.round(c * 255).toString(16).padStart(2, "0"). A negative rounded value
renders with a leading minus sign as in JavaScript. -/
def toHex (c : ℚ) : List Char :=
  let n := jsRound (c * 255)
  if n < 0 then padStart2 ('-' :: natToHexDigits n.natAbs)
  else padStart2 (natToHexDigits n.toNat)

/-- Convert RGB components in 0..1 to a hex color string (src/web/utils.ts
rgbToHex). -/
def rgbToHex (r g b : ℚ) : String :=
  String.mk ('#' :: (toHex r ++ toHex g ++ toHex b))

/-- rgbToHex applied to a color triple. -/
def rgbTripleToHex (c : Rgb) : String := rgbToHex c.1 c.2.1 c.2.2

/-- Value of one hex digit character, case insensitive, matching the regex
character class [a-f\d] with the i flag in hexToRgb. -/
def hexDigitVal (c : Char) : Option ℕ :=
  if 48 ≤ c.toNat ∧ c.toNat ≤ 57 then some (c.toNat - 48)
  else if 97 ≤ c.toNat ∧ c.toNat ≤ 102 then some (c.toNat - 97 + 10)
  else if 65 ≤ c.toNat ∧ c.toNat ≤ 70 then some (c.toNat - 65 + 10)
  else none

/-- parseInt on a two-hex-digit capture group. -/
def hexPairVal (c1 c2 : Char) : Option ℕ :=
  match hexDigitVal c1, hexDigitVal c2 with
  | some v1, some v2 => some (16 * v1 + v2)
  | _, _ => none

/-- Parse six hex digit characters into an RGB triple scaled to 0..1; any
non-hex character makes the regex fail, which yields black. -/
def parseHex6 (a b c d e f : Char) : Rgb :=
  match hexPairVal a b, hexPairVal c d, hexPairVal e f with
  | some r, some g, some bl => ((r : ℚ) / 255, (g : ℚ) / 255, (bl : ℚ) / 255)
  | _, _, _ => (0, 0, 0)

/-- Convert a hex color string to RGB in 0..1 (src/web/utils.ts hexToRgb): the
regex accepts an optional leading # followed by exactly six hex digits;
anything else returns [0, 0, 0]. -/
def hexToRgb (hex : String) : Rgb :=
  match hex.toList with
  | ['#', a, b, c, d, e, f] => parseHex6 a b c d e f
  | [a, b, c, d, e, f] => parseHex6 a b c d e f
  | _ => (0, 0, 0)

/-- Componentwise color comparison with tolerance (src/web/utils.ts
colorsEqual). -/
def colorsEqual (a b : Rgb) : Bool :=
  decide (|a.1 - b.1| < COLOR_EPSILON) &&
  decide (|a.2.1 - b.2.1| < COLOR_EPSILON) &&
  decide (|a.2.2 - b.2.2| < COLOR_EPSILON)

/-- Numeric comparison with tolerance (src/web/utils.ts numbersEqual). -/
def numbersEqual (a b : ℚ) : Bool := decide (|a - b| < NUMBER_EPSILON)

/-- Terrain generation and rendering settings (src/web/types.ts
TerrainSettings). -/
structure TerrainSettings where
  terrain_scale : ℚ
  height_scale : ℚ
  octaves : ℚ
  warp_strength : ℚ
  height_variance : ℚ
  roughness : ℚ
  pattern_type : ℚ
  seed : ℚ
  ambient : ℚ
  fog_start : ℚ
  fog_distance : ℚ
  color_abyss : Rgb
  color_deep_water : Rgb
  color_shallow_water : Rgb
  color_sand : Rgb
  color_grass : Rgb
  color_rock : Rgb
  color_snow : Rgb
  color_sky : Rgb
  color_sky_top : Rgb
  color_sky_horizon : Rgb
deriving DecidableEq

/-- Sky rendering settings (src/web/types.ts SkySettings). -/
structure SkySettings where
  star_count : ℚ
  star_size_min : ℚ
  star_size_max : ℚ
  star_color : Rgb
  star_twinkle_speed : ℚ
  star_parallax : ℚ
  sun_count : ℚ
  sun_size : ℚ
  sun_color : Rgb
  sun_parallax : ℚ
  moon_count : ℚ
  moon_size : ℚ
  moon_color : Rgb
  moon_parallax : ℚ
  seed : ℚ
deriving DecidableEq

/-- Weather particle system settings (src/web/types.ts ParticleSettings). -/
structure ParticleSettings where
  particle_type : ℚ
  density : ℚ
  max_particles : ℚ
  speed : ℚ
  wind_x : ℚ
  wind_z : ℚ
  particle_size : ℚ
  particle_color : Rgba
  spawn_height : ℚ
  spawn_radius : ℚ
deriving DecidableEq

/-- Full preset bundle (src/web/types.ts FullPreset). -/
structure FullPreset where
  name : String
  terrain : TerrainSettings
  sky : SkySettings
  particles : ParticleSettings

/-- Change category for settings comparison (src/web/types.ts ChangeCategory). -/
inductive ChangeCategory where
  | none
  | colors_only
  | generation
deriving DecidableEq

/-- The generation-affecting fields, in source order
(src/web/constants.ts GENERATION_SETTINGS), as field projections. -/
def GENERATION_SETTINGS : List (TerrainSettings → ℚ) :=
  [TerrainSettings.pattern_type,
   TerrainSettings.terrain_scale,
   TerrainSettings.height_scale,
   TerrainSettings.height_variance,
   TerrainSettings.octaves,
   TerrainSettings.warp_strength,
   TerrainSettings.roughness]

/-- The ten color fields, in source order (src/web/constants.ts
COLOR_SETTINGS), as field projections. -/
def COLOR_SETTINGS : List (TerrainSettings → Rgb) :=
  [TerrainSettings.color_abyss,
   TerrainSettings.color_deep_water,
   TerrainSettings.color_shallow_water,
   TerrainSettings.color_sand,
   TerrainSettings.color_grass,
   TerrainSettings.color_rock,
   TerrainSettings.color_snow,
   TerrainSettings.color_sky,
   TerrainSettings.color_sky_top,
   TerrainSettings.color_sky_horizon]

/-- Determine what category of settings changed (src/web/utils.ts
categorizeChanges): the source loop sets a flag when any listed field fails
the tolerance check, which is List.any over the field list. -/
def categorizeChanges (current previous : TerrainSettings) : ChangeCategory :=
  let generationChanged :=
    GENERATION_SETTINGS.any (fun key => !(numbersEqual (key current) (key previous)))
  let colorsChanged :=
    COLOR_SETTINGS.any (fun key => !(colorsEqual (key current) (key previous)))
  if generationChanged then ChangeCategory.generation
  else if colorsChanged then ChangeCategory.colors_only
  else ChangeCategory.none

/-- Snow-type weather presets (src/web/constants.ts SNOW_WEATHER_TYPES). -/
def SNOW_WEATHER_TYPES : List String := ["light-snow", "heavy-snow", "blizzard"]

/-- UI control state (src/unnamed/part_000). The DOM stores each configured
nonlinear slider's raw position; sliderToValue and valueToSlider are mutually
inverse on the slider range (theorem slider_transform_roundtrip below), so the
numeric state of each slider control is modelled by the decoded actual value it
represents: setSliderValue stores valueToSlider of the value and the collect
functions read sliderToValue of the position, which compose to the identity.
Color inputs hold hex strings; the preset dropdowns hold their string value.
Inputs are modelled as numbers where the collect functions parse them, so the
NaN branches of the parseFloat error handling do not arise. -/
structure UIState where
  patternType : ℚ
  terrainScale : ℚ
  heightScale : ℚ
  heightVariance : ℚ
  octaves : ℚ
  warpStrength : ℚ
  roughness : ℚ
  colorAbyss : String
  colorDeepWater : String
  colorShallowWater : String
  colorSand : String
  colorGrass : String
  colorRock : String
  colorSnow : String
  colorSky : String
  colorSkyTop : String
  colorSkyHorizon : String
  starCount : ℚ
  sunCount : ℚ
  moonCount : ℚ
  starColor : String
  sunColor : String
  moonColor : String
  particleDensity : ℚ
  particleSpeed : ℚ
  windX : ℚ
  windZ : ℚ
  particleColor : String
  weatherPreset : String
  skyPreset : String
deriving DecidableEq

/-- Module-scope state of src/unnamed/part_000: the WASM-side parameter store
(what get_terrain_settings and friends read back after the update calls), the
lastApplied* variables, the active preset id, the saved custom snapshot, the
currentParticleSize override and the defaults fetched at startup. The claims
concern states after initialization, so the lastApplied variables are modelled
as always set. -/
structure AppState where
  ui : UIState
  wasmTerrain : TerrainSettings
  wasmSky : SkySettings
  wasmParticles : ParticleSettings
  lastTerrain : TerrainSettings
  lastSky : SkySettings
  lastParticles : ParticleSettings
  currentPresetId : String
  savedCustom : Option (TerrainSettings × SkySettings × ParticleSettings)
  currentParticleSize : Option ℚ
  defaultParticles : ParticleSettings
deriving DecidableEq

/-- collectTerrainSettings (src/unnamed/part_000): reads the UI controls
(slider positions decoded through sliderToValue), parses the color inputs with
hexToRgb, takes ambient and fog from the last applied settings, and uses the
given seed. The source generates a fresh seed when none is passed; callers
here pass that fresh value explicitly. -/
def collectTerrainSettings (ui : UIState) (seed : ℚ) (base : TerrainSettings) :
    TerrainSettings where
  terrain_scale := ui.terrainScale
  height_scale := ui.heightScale
  octaves := ui.octaves
  warp_strength := ui.warpStrength
  height_variance := ui.heightVariance
  roughness := ui.roughness
  pattern_type := ui.patternType
  seed := seed
  ambient := base.ambient
  fog_start := base.fog_start
  fog_distance := base.fog_distance
  color_abyss := hexToRgb ui.colorAbyss
  color_deep_water := hexToRgb ui.colorDeepWater
  color_shallow_water := hexToRgb ui.colorShallowWater
  color_sand := hexToRgb ui.colorSand
  color_grass := hexToRgb ui.colorGrass
  color_rock := hexToRgb ui.colorRock
  color_snow := hexToRgb ui.colorSnow
  color_sky := hexToRgb ui.colorSky
  color_sky_top := hexToRgb ui.colorSkyTop
  color_sky_horizon := hexToRgb ui.colorSkyHorizon

/-- collectSkySettings (src/unnamed/part_000): counts and colors from the UI,
remaining fields from the last applied sky settings, seed as given. -/
def collectSkySettings (ui : UIState) (seed : ℚ) (base : SkySettings) :
    SkySettings where
  star_count := ui.starCount
  star_size_min := base.star_size_min
  star_size_max := base.star_size_max
  star_color := hexToRgb ui.starColor
  star_twinkle_speed := base.star_twinkle_speed
  star_parallax := base.star_parallax
  sun_count := ui.sunCount
  sun_size := base.sun_size
  sun_color := hexToRgb ui.sunColor
  sun_parallax := base.sun_parallax
  moon_count := ui.moonCount
  moon_size := base.moon_size
  moon_color := hexToRgb ui.moonColor
  moon_parallax := base.moon_parallax
  seed := seed

/-- buildParticleSettingsFromValues (src/unnamed/part_000): negative density
defaults to 0, negative speed to the default speed (the isNaN branches do not
arise for numeric inputs), color alpha is fixed at 0.6, spawn height/radius
and the pool ceiling come from the defaults, type is snow only when the active
weather preset is a snow type and density is positive. -/
def buildParticleSettingsFromValues (density speed windX windZ : ℚ)
    (colorHex weatherPreset : String) (defaults : ParticleSettings)
    (particleSize : ℚ) : ParticleSettings :=
  let density := if density < 0 then 0 else density
  let speed := if speed < 0 then defaults.speed else speed
  let rgb := hexToRgb colorHex
  let isSnow := weatherPreset ∈ SNOW_WEATHER_TYPES
  { particle_type := if 0 < density then (if isSnow then 1 else 0) else 0
    density := density
    max_particles := defaults.max_particles
    speed := speed
    wind_x := windX
    wind_z := windZ
    particle_size := particleSize
    particle_color := (rgb.1, rgb.2.1, rgb.2.2, 3 / 5)
    spawn_height := defaults.spawn_height
    spawn_radius := defaults.spawn_radius }

/-- collectParticleSettings (src/unnamed/part_000): the base size is the
currentParticleSize override or the default particle size, passed through the
overrides argument of buildParticleSettingsFromValues. -/
def collectParticleSettings (ui : UIState) (currentParticleSize : Option ℚ)
    (defaults : ParticleSettings) : ParticleSettings :=
  let baseSize := currentParticleSize.getD defaults.particle_size
  buildParticleSettingsFromValues ui.particleDensity ui.particleSpeed
    ui.windX ui.windZ ui.particleColor ui.weatherPreset defaults baseSize

/-- applyPresetToUI (src/unnamed/part_000): writes the preset's values into
the UI controls (sliders through valueToSlider, decoded here to the value
itself; colors through rgbToHex), resets the sky and weather preset dropdowns
to "none" and records the preset's particle size in currentParticleSize. The
theme dropdown set by detectTheme is display-only and is never read back by
the collect functions, so it is not part of the modelled UI state. -/
def applyPresetToUI (P : FullPreset) (st : AppState) : AppState :=
  { st with
    ui := { st.ui with
      patternType := P.terrain.pattern_type
      terrainScale := P.terrain.terrain_scale
      heightScale := P.terrain.height_scale
      heightVariance := P.terrain.height_variance
      octaves := P.terrain.octaves
      warpStrength := P.terrain.warp_strength
      roughness := P.terrain.roughness
      colorAbyss := rgbTripleToHex P.terrain.color_abyss
      colorDeepWater := rgbTripleToHex P.terrain.color_deep_water
      colorShallowWater := rgbTripleToHex P.terrain.color_shallow_water
      colorSand := rgbTripleToHex P.terrain.color_sand
      colorGrass := rgbTripleToHex P.terrain.color_grass
      colorRock := rgbTripleToHex P.terrain.color_rock
      colorSnow := rgbTripleToHex P.terrain.color_snow
      colorSky := rgbTripleToHex P.terrain.color_sky
      colorSkyTop := rgbTripleToHex P.terrain.color_sky_top
      colorSkyHorizon := rgbTripleToHex P.terrain.color_sky_horizon
      starCount := P.sky.star_count
      sunCount := P.sky.sun_count
      moonCount := P.sky.moon_count
      starColor := rgbTripleToHex P.sky.star_color
      sunColor := rgbTripleToHex P.sky.sun_color
      moonColor := rgbTripleToHex P.sky.moon_color
      particleDensity := P.particles.density
      particleSpeed := P.particles.speed
      windX := P.particles.wind_x
      windZ := P.particles.wind_z
      particleColor := rgbToHex P.particles.particle_color.1
        P.particles.particle_color.2.1 P.particles.particle_color.2.2.1
      weatherPreset := "none"
      skyPreset := "none" }
    currentParticleSize := some P.particles.particle_size }

/-- syncLastAppliedFromUI (src/unnamed/part_000): recollects all three
settings records from the UI with the given seeds; the collect calls use the
previous lastApplied values as their base, and currentParticleSize is updated
last from the collected particle settings. -/
def syncLastAppliedFromUI (terrainSeed skySeed : ℚ) (st : AppState) : AppState :=
  let lt := collectTerrainSettings st.ui terrainSeed st.lastTerrain
  let ls := collectSkySettings st.ui skySeed st.lastSky
  let lp := collectParticleSettings st.ui st.currentParticleSize st.defaultParticles
  { st with
    lastTerrain := lt
    lastSky := ls
    lastParticles := lp
    currentParticleSize := some lp.particle_size }

/-- selectPreset (src/unnamed/part_000). The preset fetched from the WASM side
by get_preset(presetId) is passed as P (its body lives outside src/), and the
values drawn from generateSeed are passed explicitly: saveSeedT and saveSeedS
are the fresh seeds collectTerrainSettings and collectSkySettings generate for
the custom snapshot when the active identity leaves "custom"; newSeedT and
newSeedS are the fresh seeds applied with the preset. regenerate_terrain only
rebuilds GPU buffers and changes no settings state. -/
def selectPreset (presetId : String) (P : FullPreset)
    (saveSeedT saveSeedS newSeedT newSeedS : ℚ) (st : AppState) : AppState :=
  if presetId = "custom" then
    match st.savedCustom with
    | some saved =>
      let st1 := applyPresetToUI ⟨"Custom", saved.1, saved.2.1, saved.2.2⟩ st
      let st2 := { st1 with
        wasmTerrain := saved.1
        wasmSky := saved.2.1
        wasmParticles := saved.2.2 }
      let st3 := syncLastAppliedFromUI saved.1.seed saved.2.1.seed st2
      { st3 with currentPresetId := "custom" }
    | none => { st with currentPresetId := "custom" }
  else
    let st1 :=
      if st.currentPresetId = "custom" then
        let snapshot := (collectTerrainSettings st.ui saveSeedT st.lastTerrain,
          collectSkySettings st.ui saveSeedS st.lastSky,
          collectParticleSettings st.ui st.currentParticleSize st.defaultParticles)
        { st with savedCustom := some snapshot }
      else st
    let st2 := applyPresetToUI P st1
    let terrainS := { P.terrain with seed := newSeedT }
    let skyS := { P.sky with seed := newSeedS }
    { st2 with
      wasmTerrain := terrainS
      wasmSky := skyS
      wasmParticles := P.particles
      currentPresetId := presetId
      lastTerrain := terrainS
      lastSky := skyS
      lastParticles := P.particles
      currentParticleSize := some P.particles.particle_size }

/-- The invariant established by syncLastAppliedFromUI: each last-applied
record is exactly what collecting the current UI yields with its recorded
seed. -/
def Synced (st : AppState) : Prop :=
  st.lastTerrain = collectTerrainSettings st.ui st.lastTerrain.seed st.lastTerrain ∧
  st.lastSky = collectSkySettings st.ui st.lastSky.seed st.lastSky ∧
  st.lastParticles = collectParticleSettings st.ui st.currentParticleSize st.defaultParticles

instance (st : AppState) : Decidable (Synced st) := by
  unfold Synced; infer_instance

/-! Nonlinear slider transforms (src/web/utils.ts, src/web/constants.ts),
over ℝ since Math.pow takes fractional exponents. -/

/-- Slider scaling configuration (src/web/types.ts SliderConfig). -/
structure SliderConfig where
  min : ℝ
  max : ℝ
  exponent : ℝ
  decimals : ℕ

/-- Non-linear scaling table for sliders (src/web/constants.ts
SLIDER_CONFIGS); lookup of an unregistered id misses the record. -/
noncomputable def SLIDER_CONFIGS (id : String) : Option SliderConfig :=
  if id = "terrain-scale" then some ⟨0.0005, 0.05, 3.0, 4⟩
  else if id = "warp-strength" then some ⟨0, 100, 2.0, 0⟩
  else if id = "roughness" then some ⟨0.1, 0.9, 1.5, 2⟩
  else none

/-- Transform slider position to actual value (src/web/utils.ts
sliderToValue); linear fallback for unconfigured sliders. The power is the
real power Math.pow computes. -/
noncomputable def sliderToValue (sliderId : String) (sliderValue : ℝ) : ℝ :=
  match SLIDER_CONFIGS sliderId with
  | none => sliderValue
  | some config =>
    let normalized := (sliderValue - config.min) / (config.max - config.min)
    let curved := normalized ^ config.exponent
    config.min + curved * (config.max - config.min)

/-- Transform actual value to slider position (src/web/utils.ts
valueToSlider): clamp to the configured range, then apply the inverse
exponent. -/
noncomputable def valueToSlider (sliderId : String) (actualValue : ℝ) : ℝ :=
  match SLIDER_CONFIGS sliderId with
  | none => actualValue
  | some config =>
    let clamped := max config.min (min config.max actualValue)
    let normalized := (clamped - config.min) / (config.max - config.min)
    let uncurved := normalized ^ (1 / config.exponent)
    config.min + uncurved * (config.max - config.min)

/-! Particle compute shader (the simulate kernel concatenated into
src/web/utils.ts), embedded over ℝ per particle. -/

/-- A vec3f value. -/
structure Vec3R where
  x : ℝ
  y : ℝ
  z : ℝ

/-- Particle state (struct Particle). -/
structure ParticleP where
  position : Vec3R
  velocity : Vec3R
  life : ℝ
  size : ℝ

/-- Simulation parameters (struct SimParams; the padding field carries no
data). -/
structure SimParams where
  delta_time : ℝ
  time : ℝ
  camera_pos : Vec3R
  wind_x : ℝ
  wind_z : ℝ
  spawn_height : ℝ
  spawn_radius : ℝ
  despawn_height : ℝ
  particle_type : ℕ
  speed : ℝ
  particle_count : ℕ

/-- WGSL fract: x - floor(x). -/
noncomputable def fractR (x : ℝ) : ℝ := Int.fract x

/-- The hash function of the particle shader: componentwise fract of p*0.1031,
then p3 += dot(p3, p3.yzx + 33.33), then fract((p3.x + p3.y) * p3.z). -/
noncomputable def hashW (p : Vec3R) : ℝ :=
  let ax := fractR (p.x * 0.1031)
  let ay := fractR (p.y * 0.1031)
  let az := fractR (p.z * 0.1031)
  let d := ax * (ay + 33.33) + ay * (az + 33.33) + az * (ax + 33.33)
  fractR ((ax + d + (ay + d)) * (az + d))

/-- The hash2 function of the particle shader, used for snow drift. -/
noncomputable def hash2W (px py : ℝ) : ℝ × ℝ :=
  let kx : ℝ := 0.3183099
  let ky : ℝ := 0.3678794
  let p2x := px * kx + ky
  let p2y := py * ky + kx
  let inner := fractR (p2x * p2y * (p2x + p2y))
  (fractR (16 * kx * inner), fractR (16 * ky * inner))

/-- The integration prefix of the simulate kernel: position += velocity * dt,
life -= dt. -/
def integrateParticle (sim : SimParams) (p : ParticleP) : ParticleP :=
  { p with
    position := Vec3R.mk (p.position.x + p.velocity.x * sim.delta_time)
      (p.position.y + p.velocity.y * sim.delta_time)
      (p.position.z + p.velocity.z * sim.delta_time)
    life := p.life - sim.delta_time }

/-- length(p.position.xz - camera_pos.xz). -/
noncomputable def horizontalDist (sim : SimParams) (p : ParticleP) : ℝ :=
  Real.sqrt ((p.position.x - sim.camera_pos.x) ^ 2 +
             (p.position.z - sim.camera_pos.z) ^ 2)

/-- The has_nan self-inequality check of the simulate kernel, written exactly
as in the source; over ℝ there are no non-finite values, so each disjunct is
false, which is the idealized semantics of the NaN test on finite data. -/
def hasNaN (p : ParticleP) : Prop :=
  p.position.x ≠ p.position.x ∨ p.position.y ≠ p.position.y ∨
  p.position.z ≠ p.position.z ∨ p.velocity.x ≠ p.velocity.x ∨
  p.velocity.y ≠ p.velocity.y ∨ p.velocity.z ≠ p.velocity.z

/-- The needs_respawn condition of the simulate kernel, evaluated on the
already-integrated particle. -/
def needsRespawn (sim : SimParams) (p : ParticleP) : Prop :=
  p.life ≤ 0 ∨ p.position.y < sim.despawn_height ∨
  horizontalDist sim p > sim.spawn_radius * 1.5 ∨ hasNaN p

/-- The respawn branch of the simulate kernel: time-stabilized hash seeds, a
random angle and sqrt-distributed radius inside the spawn disc, a height in
the spawn range above the camera, type-specific velocity and a random
lifetime. The particle size field is left unchanged, as in the source. -/
noncomputable def respawnParticle (sim : SimParams) (idx : ℕ) (p : ParticleP) :
    ParticleP :=
  let stable_time := sim.time - (⌊sim.time / 1000⌋ : ℝ) * 1000
  let seedx := (idx : ℝ)
  let seedy := stable_time
  let seedz := (idx : ℝ) * 0.7
  let rand1 := hashW ⟨seedx, seedy, seedz⟩
  let rand2 := hashW ⟨seedx + 1, seedy + 2, seedz + 3⟩
  let rand3 := hashW ⟨seedx + 4, seedy + 5, seedz + 6⟩
  let angle := rand1 * 6.28318
  let dist := Real.sqrt rand2 * sim.spawn_radius
  let px := sim.camera_pos.x + Real.cos angle * dist
  let pz := sim.camera_pos.z + Real.sin angle * dist
  let py := sim.camera_pos.y + sim.spawn_height * rand3
  let vel :=
    if sim.particle_type = 0 then
      Vec3R.mk (sim.wind_x * 0.5) (-sim.speed) (sim.wind_z * 0.5)
    else
      let drift := hash2W ((idx : ℝ) + sim.time) rand1
      Vec3R.mk (sim.wind_x * 0.3 + (drift.1 - 0.5) * 2) (-sim.speed * 0.3)
        (sim.wind_z * 0.3 + (drift.2 - 0.5) * 2)
  { p with position := Vec3R.mk px py pz, velocity := vel, life := 3 + rand3 * 5 }

/-- The non-respawn branch of the simulate kernel: wind acceleration, with a
weaker coupling and light damping for snow. -/
def driftParticle (sim : SimParams) (p : ParticleP) : ParticleP :=
  if sim.particle_type = 0 then
    { p with velocity :=
        (Vec3R.mk (p.velocity.x + sim.wind_x * sim.delta_time * 0.1) p.velocity.y
          (p.velocity.z + sim.wind_z * sim.delta_time * 0.1)) }
  else
    { p with velocity :=
        (Vec3R.mk ((p.velocity.x + sim.wind_x * sim.delta_time * 0.05) * 0.995)
          p.velocity.y
          ((p.velocity.z + sim.wind_z * sim.delta_time * 0.05) * 0.995)) }

open Classical in
/-- One invocation of the simulate kernel for one particle: integrate, test
needs_respawn, then either respawn or drift. -/
noncomputable def stepParticle (sim : SimParams) (idx : ℕ) (p : ParticleP) :
    ParticleP :=
  let p1 := integrateParticle sim p
  if needsRespawn sim p1 then respawnParticle sim idx p1 else driftParticle sim p1

/-- One full dispatch over the double-buffered pool: indices below
particle_count are simulated from the read buffer; other entries of the write
buffer are left untouched. -/
noncomputable def simulateDispatch (sim : SimParams)
    (particlesIn particlesOut : ℕ → ParticleP) : ℕ → ParticleP :=
  fun idx =>
    if idx < sim.particle_count then stepParticle sim idx (particlesIn idx)
    else particlesOut idx

/-- Repeated simulation steps for one particle index, with the frame time of
step k given by ts k and all other parameters fixed. -/
noncomputable def simulateRun (base : SimParams) (ts : ℕ → ℝ) (idx : ℕ)
    (p0 : ParticleP) : ℕ → ParticleP
  | 0 => p0
  | n + 1 => stepParticle { base with time := ts n } idx (simulateRun base ts idx p0 n)

/-- The particle at index idx is flagged for respawn during step n of the
run. -/
noncomputable def respawnedAt (base : SimParams) (ts : ℕ → ℝ) (idx : ℕ)
    (p0 : ParticleP) (n : ℕ) : Prop :=
  needsRespawn { base with time := ts n }
    (integrateParticle { base with time := ts n } (simulateRun base ts idx p0 n))

/-! Heightfield compute kernel (src/shaders/terrain.wgsl), embedded over ℝ
per grid vertex, with vector quantities written out componentwise. -/

/-- A vec2f value. -/
structure Vec2R where
  x : ℝ
  y : ℝ

/-- One component of mod289: x - floor(x * (1/289)) * 289. -/
noncomputable def mod289 (x : ℝ) : ℝ := x - (⌊x * (1 / 289)⌋ : ℝ) * 289

/-- One component of permute3: mod289(((x * 34) + 1) * x); permute3 and
mod289_3 act componentwise. -/
noncomputable def permute (x : ℝ) : ℝ := mod289 (((x * 34) + 1) * x)

open Classical in
/-- Simplex 2D noise (src/shaders/terrain.wgsl simplex_noise_2d), with the
vec2/vec3/vec4 intermediates written out componentwise; select(f, t, cond)
picks t when the condition holds. -/
noncomputable def simplex_noise_2d (v : Vec2R) : ℝ :=
  let Cx : ℝ := 0.211324865405187
  let Cy : ℝ := 0.366025403784439
  let Cz : ℝ := -0.577350269189626
  let Cw : ℝ := 0.024390243902439
  let s := (v.x + v.y) * Cy
  let ix := (⌊v.x + s⌋ : ℝ)
  let iy := (⌊v.y + s⌋ : ℝ)
  let t := (ix + iy) * Cx
  let x0x := v.x - ix + t
  let x0y := v.y - iy + t
  let i1x : ℝ := if x0x > x0y then 1 else 0
  let i1y : ℝ := if x0x > x0y then 0 else 1
  let x12x := x0x + Cx - i1x
  let x12y := x0y + Cx - i1y
  let x12z := x0x + Cz
  let x12w := x0y + Cz
  let imx := mod289 ix
  let imy := mod289 iy
  let p0 := permute (permute (imy + 0) + imx + 0)
  let p1 := permute (permute (imy + i1y) + imx + i1x)
  let p2 := permute (permute (imy + 1) + imx + 1)
  let m0 := max (0.5 - (x0x * x0x + x0y * x0y)) 0
  let m1 := max (0.5 - (x12x * x12x + x12y * x12y)) 0
  let m2 := max (0.5 - (x12z * x12z + x12w * x12w)) 0
  let m0a := (m0 * m0) * (m0 * m0)
  let m1a := (m1 * m1) * (m1 * m1)
  let m2a := (m2 * m2) * (m2 * m2)
  let gx0 := 2 * fractR (p0 * Cw) - 1
  let gx1 := 2 * fractR (p1 * Cw) - 1
  let gx2 := 2 * fractR (p2 * Cw) - 1
  let h0 := |gx0| - 0.5
  let h1 := |gx1| - 0.5
  let h2 := |gx2| - 0.5
  let ox0 := (⌊gx0 + 0.5⌋ : ℝ)
  let ox1 := (⌊gx1 + 0.5⌋ : ℝ)
  let ox2 := (⌊gx2 + 0.5⌋ : ℝ)
  let a00 := gx0 - ox0
  let a01 := gx1 - ox1
  let a02 := gx2 - ox2
  let m0b := m0a * (1.79284291400159 - 0.85373472095314 * (a00 * a00 + h0 * h0))
  let m1b := m1a * (1.79284291400159 - 0.85373472095314 * (a01 * a01 + h1 * h1))
  let m2b := m2a * (1.79284291400159 - 0.85373472095314 * (a02 * a02 + h2 * h2))
  let g0 := a00 * x0x + h0 * x0y
  let g1 := a01 * x12x + h1 * x12y
  let g2 := a02 * x12z + h2 * x12w
  130 * (m0b * g0 + m1b * g1 + m2b * g2)

/-- The fbm accumulation loop, carrying value, amplitude and frequency. -/
noncomputable def fbmGo (px py roughness : ℝ) :
    ℝ → ℝ → ℝ → ℕ → ℝ
  | value, _, _, 0 => value
  | value, amplitude, frequency, n + 1 =>
    fbmGo px py roughness
      (value + amplitude * simplex_noise_2d ⟨px * frequency, py * frequency⟩)
      (amplitude * roughness) (frequency * 2) n

/-- fbm_rough (src/shaders/terrain.wgsl): fractal sum with persistence equal
to the roughness parameter, starting amplitude 0.5 and frequency 1. The
octave count is the source's i32 loop bound as a natural number; call sites
below use truncated subtraction, which matches zero loop iterations for a
negative i32 bound. -/
noncomputable def fbm_rough (p : Vec2R) (octaves : ℕ) (roughness : ℝ) : ℝ :=
  fbmGo p.x p.y roughness 0 0.5 1 octaves

/-- fbm (src/shaders/terrain.wgsl): the fixed-persistence (0.5) fractal sum
used by domain_warp. -/
noncomputable def fbm (p : Vec2R) (octaves : ℕ) : ℝ :=
  fbmGo p.x p.y 0.5 0 0.5 1 octaves

/-- domain_warp (src/shaders/terrain.wgsl): p plus warp_strength times a
two-channel fbm offset sampled at p and at p + (5.2, 1.3), 3 octaves each. -/
noncomputable def domain_warp (p : Vec2R) (warp_strength : ℝ) : Vec2R :=
  Vec2R.mk (p.x + fbm ⟨p.x + 0, p.y + 0⟩ 3 * warp_strength)
    (p.y + fbm ⟨p.x + 5.2, p.y + 1.3⟩ 3 * warp_strength)

/-- WGSL smoothstep(lo, hi, x). -/
noncomputable def smoothstepR (lo hi x : ℝ) : ℝ :=
  let t := min (max ((x - lo) / (hi - lo)) 0) 1
  t * t * (3 - 2 * t)

/-- Compute parameters of the heightfield kernel (struct ComputeParams;
octaves, pattern_type and seed are u32 on the wire). -/
structure ComputeParams where
  chunk_offset : Vec2R
  terrain_scale : ℝ
  height_scale : ℝ
  octaves : ℕ
  warp_strength : ℝ
  height_variance : ℝ
  roughness : ℝ
  pattern_type : ℕ
  seed : ℕ

/-- The terrace step count of pattern 4 (src/shaders/terrain.wgsl):
terrace_count = 6.0 + variance * 6.0 where variance is height_variance. -/
noncomputable def terraceCount (cp : ComputeParams) : ℝ :=
  6 + cp.height_variance * 6

/-- The sampling position of a grid vertex: chunk origin plus normalized UV
times the chunk world size, offset by the two seed-derived linear scalings,
then scaled by terrain_scale (CHUNK_SIZE = 64, CHUNK_WORLD_SIZE = 256). -/
noncomputable def noisePosition (cp : ComputeParams) (ix iy : ℕ) : Vec2R :=
  let local_uvx := (ix : ℝ) / (63 : ℝ)
  let local_uvy := (iy : ℝ) / (63 : ℝ)
  let world_posx := cp.chunk_offset.x + local_uvx * 256
  let world_posy := cp.chunk_offset.y + local_uvy * 256
  let seed_offx := (cp.seed : ℝ) * 0.1
  let seed_offy := (cp.seed : ℝ) * 0.137
  Vec2R.mk ((world_posx + seed_offx) * cp.terrain_scale)
    ((world_posy + seed_offy) * cp.terrain_scale)

/-- The base warped-fractal height: domain-warped fractal-sum noise scaled by
height_scale — the expression of the default (unmatched pattern) case of
compute_height, which the spec documents as the fallback base algorithm. -/
noncomputable def baseWarpedHeight (cp : ComputeParams) (ix iy : ℕ) : ℝ :=
  let np := noisePosition cp ix iy
  let warped := domain_warp ⟨np.x * 0.5, np.y * 0.5⟩ cp.warp_strength
  fbm_rough ⟨warped.x * 0.3, warped.y * 0.3⟩ cp.octaves cp.roughness * cp.height_scale

/-- compute_height (src/shaders/terrain.wgsl): the height written to the
buffer for grid vertex (ix, iy); the switch on pattern_type selects one of
the six pattern algorithms, anything else falls through to the default case.
WGSL pow is modelled by the real power, and i32 octave arithmetic at the
fbm_rough call sites by truncated natural subtraction (both give zero loop
iterations when the i32 value would be negative). -/
noncomputable def compute_height (cp : ComputeParams) (ix iy : ℕ) : ℝ :=
  let np := noisePosition cp ix iy
  let octaves := cp.octaves
  let roughness := cp.roughness
  let variance := cp.height_variance
  match cp.pattern_type with
  | 0 =>
    let warped := domain_warp ⟨np.x * 0.5, np.y * 0.5⟩ cp.warp_strength
    let base := fbm_rough ⟨warped.x * 0.3, warped.y * 0.3⟩ octaves roughness * cp.height_scale
    let detail_octaves := max (octaves - 2) 2
    let withDetail := base +
      fbm_rough ⟨np.x * 2, np.y * 2⟩ detail_octaves roughness * cp.height_scale * 0.15 * variance
    let ridge := 1 - |fbm_rough ⟨np.x * 0.8, np.y * 0.8⟩ detail_octaves roughness|
    withDetail + ridge * ridge * cp.height_scale * 0.3 * variance
  | 1 =>
    let warped := domain_warp ⟨np.x * 0.5, np.y * 0.5⟩ (cp.warp_strength * 1.5)
    let base := fbm_rough ⟨warped.x * 0.2, warped.y * 0.2⟩ octaves roughness * cp.height_scale * 0.3
    let ridge1 := 1 - |fbm_rough ⟨warped.x * 0.6, warped.y * 0.6⟩ octaves roughness|
    let ridge2 := 1 - |fbm_rough ⟨warped.x * 1, warped.y * 1⟩ (octaves - 1) roughness|
    let withRidges := base + ridge1 ^ (2.5 : ℝ) * cp.height_scale * 0.6 * variance +
      ridge2 ^ (2.0 : ℝ) * cp.height_scale * 0.3 * variance
    withRidges + fbm_rough ⟨np.x * 3, np.y * 3⟩ 4 roughness * cp.height_scale * 0.08
  | 2 =>
    let warped := domain_warp ⟨np.x * 0.5, np.y * 0.5⟩ cp.warp_strength
    let base_height := fbm_rough ⟨warped.x * 0.3, warped.y * 0.3⟩ octaves roughness
    let island_noise := fbm_rough ⟨np.x * 0.15, np.y * 0.15⟩ 4 0.5
    let island_mask := smoothstepR (-0.1) 0.3 island_noise
    let masked := (base_height * island_mask - 0.3) * cp.height_scale
    masked + fbm_rough ⟨np.x * 2, np.y * 2⟩ 4 roughness * cp.height_scale * 0.1 * variance * island_mask
  | 3 =>
    let warped := domain_warp ⟨np.x * 0.5, np.y * 0.5⟩ cp.warp_strength
    let base := fbm_rough ⟨warped.x * 0.3, warped.y * 0.3⟩ octaves roughness * cp.height_scale * 0.5
    let valley1 := |fbm_rough ⟨warped.x * 0.5, warped.y * 0.5⟩ (octaves - 1) roughness|
    let valley2 := |fbm_rough ⟨warped.x * 0.8 + 100, warped.y * 0.8 + 100⟩ (octaves - 2) roughness|
    let carved := base - (1 - valley1) ^ (3.0 : ℝ) * cp.height_scale * 0.6 * variance -
      (1 - valley2) ^ (2.0 : ℝ) * cp.height_scale * 0.3 * variance
    carved + fbm_rough ⟨np.x * 3, np.y * 3⟩ 3 roughness * cp.height_scale * 0.05
  | 4 =>
    let warped := domain_warp ⟨np.x * 0.5, np.y * 0.5⟩ cp.warp_strength
    let raw_height := fbm_rough ⟨warped.x * 0.3, warped.y * 0.3⟩ octaves roughness * cp.height_scale
    let step_size := cp.height_scale / terraceCount cp
    let quantized := (⌊raw_height / step_size + 0.5⌋ : ℝ) * step_size
    quantized + fbm_rough ⟨np.x * 4, np.y * 4⟩ 3 roughness * step_size * 0.2
  | 5 =>
    let bpx := np.x + 1000000
    let bpy := np.y + 1337000
    let warped := domain_warp ⟨bpx * 0.5, bpy * 0.5⟩ cp.warp_strength
    let base := fbm_rough ⟨warped.x * 0.3, warped.y * 0.3⟩ octaves roughness * cp.height_scale
    let detail_octaves := max (octaves - 2) 2
    let withDetail := base +
      fbm_rough ⟨bpx * 2, bpy * 2⟩ detail_octaves roughness * cp.height_scale * 0.15 * variance
    let ridge := 1 - |fbm_rough ⟨bpx * 0.8, bpy * 0.8⟩ detail_octaves roughness|
    withDetail + ridge * ridge * cp.height_scale * 0.3 * variance
  | _ =>
    let warped := domain_warp ⟨np.x * 0.5, np.y * 0.5⟩ cp.warp_strength
    fbm_rough ⟨warped.x * 0.3, warped.y * 0.3⟩ octaves roughness * cp.height_scale

/-! Example values used by the witnesses. -/

/-- A terrain settings record with the "natural" theme colors, written as
fractions so that kernel evaluation reduces. -/
def baseTerrainEx : TerrainSettings where
  terrain_scale := 1 / 100
  height_scale := 50
  octaves := 5
  warp_strength := 10
  height_variance := 1 / 2
  roughness := 1 / 2
  pattern_type := 0
  seed := 42
  ambient := 1 / 5
  fog_start := 100
  fog_distance := 400
  color_abyss := (1 / 20, 1 / 10, 1 / 4)
  color_deep_water := (1 / 10, 1 / 5, 2 / 5)
  color_shallow_water := (1 / 5, 2 / 5, 3 / 5)
  color_sand := (19 / 25, 7 / 10, 1 / 2)
  color_grass := (11 / 50, 9 / 20, 3 / 20)
  color_rock := (9 / 20, 21 / 50, 19 / 50)
  color_snow := (19 / 20, 19 / 20, 49 / 50)
  color_sky := (3 / 5, 7 / 10, 17 / 20)
  color_sky_top := (2 / 5, 11 / 20, 4 / 5)
  color_sky_horizon := (3 / 4, 41 / 50, 23 / 25)

/-- baseTerrainEx changed only in fields outside both comparison lists. -/
def seedOnlyEx : TerrainSettings :=
  { baseTerrainEx with seed := 43, ambient := 3 / 10, fog_start := 120 }

/-- baseTerrainEx with a generation field and a color field both changed. -/
def genChangedEx : TerrainSettings :=
  { baseTerrainEx with octaves := 6, color_grass := (1, 0, 0) }

/-- baseTerrainEx with only a color field changed. -/
def colorChangedEx : TerrainSettings :=
  { baseTerrainEx with color_grass := (1, 0, 0) }

/-- Example sky settings. -/
def skyEx : SkySettings where
  star_count := 300
  star_size_min := 1 / 2
  star_size_max := 5 / 2
  star_color := (1, 1, 9 / 10)
  star_twinkle_speed := 1
  star_parallax := 1 / 10
  sun_count := 0
  sun_size := 50
  sun_color := (1, 19 / 20, 4 / 5)
  sun_parallax := 1 / 25
  moon_count := 1
  moon_size := 40
  moon_color := (9 / 10, 9 / 10, 19 / 20)
  moon_parallax := 2 / 25
  seed := 7

/-- Example particle settings. -/
def particlesEx : ParticleSettings where
  particle_type := 0
  density := 3 / 10
  max_particles := 50000
  speed := 30
  wind_x := 2
  wind_z := 1
  particle_size := 2 / 5
  particle_color := (7 / 10, 4 / 5, 9 / 10, 1 / 2)
  spawn_height := 60
  spawn_radius := 80

/-- An example full preset. -/
def presetEx : FullPreset := ⟨"Alpine", baseTerrainEx, skyEx, particlesEx⟩

/-- An example UI state with valid hex color strings. -/
def uiEx : UIState where
  patternType := 0
  terrainScale := 1 / 100
  heightScale := 50
  heightVariance := 1 / 2
  octaves := 5
  warpStrength := 10
  roughness := 1 / 2
  colorAbyss := "#0d1a40"
  colorDeepWater := "#1a3366"
  colorShallowWater := "#336699"
  colorSand := "#c2b380"
  colorGrass := "#387326"
  colorRock := "#736b61"
  colorSnow := "#f2f2fa"
  colorSky := "#99b3d9"
  colorSkyTop := "#668ccc"
  colorSkyHorizon := "#bfd1eb"
  starCount := 300
  sunCount := 0
  moonCount := 1
  starColor := "#ffffe5"
  sunColor := "#fff2cc"
  moonColor := "#e5e5f2"
  particleDensity := 3 / 10
  particleSpeed := 30
  windX := 2
  windZ := 1
  particleColor := "#b3cce5"
  weatherPreset := "none"
  skyPreset := "none"

/-- An example app state in the custom identity whose lastApplied records are
collected from its UI, so that it satisfies the Synced invariant. -/
def appStateEx : AppState where
  ui := uiEx
  wasmTerrain := collectTerrainSettings uiEx 7 baseTerrainEx
  wasmSky := collectSkySettings uiEx 9 skyEx
  wasmParticles := collectParticleSettings uiEx (some (2 / 5)) particlesEx
  lastTerrain := collectTerrainSettings uiEx 7 baseTerrainEx
  lastSky := collectSkySettings uiEx 9 skyEx
  lastParticles := collectParticleSettings uiEx (some (2 / 5)) particlesEx
  currentPresetId := "custom"
  savedCustom := none
  currentParticleSize := some (2 / 5)
  defaultParticles := particlesEx

/-- Example compute parameters with an out-of-range pattern selector. -/
noncomputable def cpEx : ComputeParams := ⟨⟨0, 0⟩, 0.01, 50, 5, 10, 0.5, 0.5, 7, 3⟩

/-- Terraced-pattern compute parameters. -/
noncomputable def cpSeedA : ComputeParams := ⟨⟨0, 0⟩, 0.01, 50, 5, 10, 0.5, 0.5, 4, 1⟩

/-- cpSeedA with only the seed changed. -/
noncomputable def cpSeedB : ComputeParams := { cpSeedA with seed := 2 }

/-- cpSeedA with the height variance set to 0. -/
noncomputable def cpVarA : ComputeParams := { cpSeedA with height_variance := 0 }

/-- cpSeedA with the height variance set to 1 and another seed. -/
noncomputable def cpVarB : ComputeParams := { cpSeedA with height_variance := 1, seed := 9 }

/-- An example particle. -/
noncomputable def pEx : ParticleP := ⟨⟨1, 2, 3⟩, ⟨0, -1, 0⟩, 5, 1⟩

/-- Example parameters for the respawn guarantee, with dt = 1. -/
noncomputable def simEx2 : SimParams := ⟨1, 0, ⟨0, 0, 0⟩, 0, 0, 0, 0, 0, 0, 1, 1⟩

/-- An example particle with expired life. -/
noncomputable def pEx3 : ParticleP := ⟨⟨0, 0, 0⟩, ⟨0, 0, 0⟩, 0, 1⟩

/-- A second, different example particle. -/
noncomputable def pEx2 : ParticleP := ⟨⟨9, 9, 9⟩, ⟨0, 0, 0⟩, 1, 1⟩

/-- Example simulation parameters. -/
noncomputable def simEx : SimParams := ⟨0.016, 10, ⟨0, 5, 0⟩, 1, 0, 60, 80, -40, 0, 30, 1000⟩

/-- A constant input buffer. -/
noncomputable def bufEx1 : ℕ → ParticleP := fun _ => pEx

/-- An input buffer that differs from bufEx1 at index 0 only. -/
noncomputable def bufEx2 : ℕ → ParticleP := fun j => if j = 0 then pEx2 else pEx

/-! Theorems. -/

theorem numbersEqual_self (a : ℚ) : numbersEqual a a = true := by
  simp only [numbersEqual, sub_self, abs_zero, decide_eq_true_eq]
  norm_num [NUMBER_EPSILON]

theorem colorsEqual_self (a : Rgb) : colorsEqual a a = true := by
  simp only [colorsEqual, sub_self, abs_zero, Bool.and_eq_true, decide_eq_true_eq]
  norm_num [COLOR_EPSILON]

theorem numbersEqual_eq_false (a b : ℚ) (h : NUMBER_EPSILON ≤ |a - b|) :
    numbersEqual a b = false := by
  simp only [numbersEqual, decide_eq_false_iff_not, not_lt]
  exact h

theorem colorsEqual_eq_false_left (a b : Rgb) (h : COLOR_EPSILON ≤ |a.1 - b.1|) :
    colorsEqual a b = false := by
  have h1 : decide (|a.1 - b.1| < COLOR_EPSILON) = false := by
    simp only [decide_eq_false_iff_not, not_lt]
    exact h
  simp [colorsEqual, h1]

theorem categorizeChanges_none_of (c p : TerrainSettings)
    (hg : ∀ k ∈ GENERATION_SETTINGS, numbersEqual (k c) (k p) = true)
    (hc : ∀ k ∈ COLOR_SETTINGS, colorsEqual (k c) (k p) = true) :
    categorizeChanges c p = ChangeCategory.none := by
  have h1 : GENERATION_SETTINGS.any (fun k => !(numbersEqual (k c) (k p))) = false := by
    rw [List.any_eq_false]
    intro k hk
    simp [hg k hk]
  have h2 : COLOR_SETTINGS.any (fun k => !(colorsEqual (k c) (k p))) = false := by
    rw [List.any_eq_false]
    intro k hk
    simp [hc k hk]
  simp [categorizeChanges, h1, h2]

theorem categorizeChanges_generation_of (c p : TerrainSettings)
    (h : ∃ k ∈ GENERATION_SETTINGS, numbersEqual (k c) (k p) = false) :
    categorizeChanges c p = ChangeCategory.generation := by
  have h1 : GENERATION_SETTINGS.any (fun k => !(numbersEqual (k c) (k p))) = true := by
    rw [List.any_eq_true]
    obtain ⟨k, hk, hkf⟩ := h
    exact ⟨k, hk, by simp [hkf]⟩
  simp [categorizeChanges, h1]

theorem categorizeChanges_colors_of (c p : TerrainSettings)
    (hg : ∀ k ∈ GENERATION_SETTINGS, numbersEqual (k c) (k p) = true)
    (h : ∃ k ∈ COLOR_SETTINGS, colorsEqual (k c) (k p) = false) :
    categorizeChanges c p = ChangeCategory.colors_only := by
  have h1 : GENERATION_SETTINGS.any (fun k => !(numbersEqual (k c) (k p))) = false := by
    rw [List.any_eq_false]
    intro k hk
    simp [hg k hk]
  have h2 : COLOR_SETTINGS.any (fun k => !(colorsEqual (k c) (k p))) = true := by
    rw [List.any_eq_true]
    obtain ⟨k, hk, hkf⟩ := h
    exact ⟨k, hk, by simp [hkf]⟩
  simp [categorizeChanges, h1, h2]

/-- C2: categorizeChanges is a total function on pairs of TerrainSettings and
satisfies: two settings that agree on every generation field and every color
field (so that they differ only in fields outside both lists, such as seed,
ambient or fog) classify as none; a difference beyond the numeric tolerance in
any generation field classifies as generation, even when colors also differ;
otherwise a difference beyond the color tolerance in any of the 10 color
fields classifies as colors_only. -/
theorem categorizeChanges_spec :
    (∀ c p : TerrainSettings,
        (∀ k ∈ GENERATION_SETTINGS, k c = k p) →
        (∀ k ∈ COLOR_SETTINGS, k c = k p) →
        categorizeChanges c p = ChangeCategory.none) ∧
    (∀ c p : TerrainSettings,
        (∃ k ∈ GENERATION_SETTINGS, numbersEqual (k c) (k p) = false) →
        categorizeChanges c p = ChangeCategory.generation) ∧
    (∀ c p : TerrainSettings,
        (∀ k ∈ GENERATION_SETTINGS, numbersEqual (k c) (k p) = true) →
        (∃ k ∈ COLOR_SETTINGS, colorsEqual (k c) (k p) = false) →
        categorizeChanges c p = ChangeCategory.colors_only) := by
  refine ⟨fun c p hg hc => ?_, fun c p h => ?_, fun c p hg h => ?_⟩
  · exact categorizeChanges_none_of c p
      (fun k hk => by rw [hg k hk]; exact numbersEqual_self _)
      (fun k hk => by rw [hc k hk]; exact colorsEqual_self _)
  · exact categorizeChanges_generation_of c p h
  · exact categorizeChanges_colors_of c p hg h

/-- Witness for C2 at concrete settings: a seed/ambient/fog-only change is
none, a combined octave and color change is generation, a color-only change
is colors_only. -/
theorem categorizeChanges_spec_witness :
    categorizeChanges seedOnlyEx baseTerrainEx = ChangeCategory.none ∧
    categorizeChanges genChangedEx baseTerrainEx = ChangeCategory.generation ∧
    categorizeChanges colorChangedEx baseTerrainEx = ChangeCategory.colors_only :=
  ⟨categorizeChanges_spec.1 seedOnlyEx baseTerrainEx
      (by intro k hk; fin_cases hk <;> rfl)
      (by intro k hk; fin_cases hk <;> rfl),
   categorizeChanges_spec.2.1 genChangedEx baseTerrainEx
      ⟨TerrainSettings.octaves, by simp [GENERATION_SETTINGS],
        numbersEqual_eq_false _ _ (by norm_num [NUMBER_EPSILON, genChangedEx, baseTerrainEx])⟩,
   categorizeChanges_spec.2.2 colorChangedEx baseTerrainEx
      (by intro k hk; fin_cases hk <;> exact numbersEqual_self _)
      ⟨TerrainSettings.color_grass, by simp [COLOR_SETTINGS],
        colorsEqual_eq_false_left _ _ (by
          norm_num [COLOR_EPSILON, colorChangedEx, baseTerrainEx]
          rw [abs_of_pos (show (0:ℚ) < 39/50 by norm_num)]
          norm_num)⟩⟩

theorem slider_fwd_inv_aux (a b e x : ℝ) (hab : a < b) (he : 0 < e)
    (hx1 : a ≤ x) (hx2 : x ≤ b) :
    a + ((max a (min b (a + ((x - a) / (b - a)) ^ e * (b - a))) - a) / (b - a)) ^ (1 / e) *
      (b - a) = x := by
  have hba : (0:ℝ) < b - a := by linarith
  have hba' : b - a ≠ 0 := ne_of_gt hba
  set n := (x - a) / (b - a) with hn
  have hn0 : 0 ≤ n := div_nonneg (by linarith) hba.le
  have hn1 : n ≤ 1 := by
    rw [hn, div_le_one hba]; linarith
  have hne0 : 0 ≤ n ^ e := Real.rpow_nonneg hn0 e
  have hne1 : n ^ e ≤ 1 := Real.rpow_le_one hn0 hn1 he.le
  have hv1 : a ≤ a + n ^ e * (b - a) := by nlinarith
  have hv2 : a + n ^ e * (b - a) ≤ b := by nlinarith
  rw [min_eq_right hv2, max_eq_right hv1]
  have hq : (a + n ^ e * (b - a) - a) / (b - a) = n ^ e := by
    field_simp
  rw [hq, ← Real.rpow_mul hn0, mul_one_div_cancel (ne_of_gt he), Real.rpow_one, hn,
    div_mul_cancel₀ _ hba']
  ring

theorem slider_inv_fwd_aux (a b e x : ℝ) (hab : a < b) (he : 0 < e)
    (hx1 : a ≤ x) (hx2 : x ≤ b) :
    a + ((a + ((max a (min b x) - a) / (b - a)) ^ (1 / e) * (b - a) - a) / (b - a)) ^ e *
      (b - a) = x := by
  have hba : (0:ℝ) < b - a := by linarith
  have hba' : b - a ≠ 0 := ne_of_gt hba
  rw [min_eq_right hx2, max_eq_right hx1]
  set n := (x - a) / (b - a) with hn
  have hn0 : 0 ≤ n := div_nonneg (by linarith) hba.le
  have hne0 : 0 ≤ n ^ (1 / e) := Real.rpow_nonneg hn0 _
  have hq : (a + n ^ (1 / e) * (b - a) - a) / (b - a) = n ^ (1 / e) := by
    field_simp
  rw [hq, ← Real.rpow_mul hn0, one_div_mul_cancel (ne_of_gt he), Real.rpow_one, hn,
    div_mul_cancel₀ _ hba']
  ring

/-- C1: for every slider id registered in SLIDER_CONFIGS (terrain-scale,
warp-strength, roughness) and every position x inside that slider's
[min, max] range, the two transforms round-trip:
valueToSlider (sliderToValue x) = x and sliderToValue (valueToSlider x) = x
(exactly over ℝ, hence within any floating tolerance). -/
theorem slider_transform_roundtrip (id : String) (c : SliderConfig)
    (hc : SLIDER_CONFIGS id = some c) (x : ℝ) (hx1 : c.min ≤ x) (hx2 : x ≤ c.max) :
    valueToSlider id (sliderToValue id x) = x ∧
    sliderToValue id (valueToSlider id x) = x := by
  have hprops : c.min < c.max ∧ 0 < c.exponent := by
    unfold SLIDER_CONFIGS at hc
    split_ifs at hc <;> (injection hc with h; subst h; constructor <;> norm_num)
  obtain ⟨hm, he⟩ := hprops
  simp only [sliderToValue, valueToSlider, hc]
  exact ⟨slider_fwd_inv_aux c.min c.max c.exponent x hm he hx1 hx2,
    slider_inv_fwd_aux c.min c.max c.exponent x hm he hx1 hx2⟩

/-- Witness for C1: the roughness slider at position 0.5 round-trips. -/
theorem slider_transform_roundtrip_witness :
    SLIDER_CONFIGS "roughness" = some ⟨0.1, 0.9, 1.5, 2⟩ ∧
    ((0.1:ℝ) ≤ 0.5 ∧ (0.5:ℝ) ≤ 0.9) ∧
    (valueToSlider "roughness" (sliderToValue "roughness" 0.5) = 0.5 ∧
     sliderToValue "roughness" (valueToSlider "roughness" 0.5) = 0.5) :=
  ⟨by simp [SLIDER_CONFIGS], ⟨by norm_num, by norm_num⟩,
   slider_transform_roundtrip "roughness" ⟨0.1, 0.9, 1.5, 2⟩ (by simp [SLIDER_CONFIGS])
     0.5 (by norm_num) (by norm_num)⟩

/-- C5: in one simulation step a particle is flagged for respawn if and only
if its life after the decrement is ≤ 0, or its integrated y position is below
the despawn height, or its horizontal (xz) distance from the camera exceeds
1.5 × spawn_radius, or a position/velocity component fails the self-equality
check of the kernel (the NaN test, vacuous on real values). -/
theorem respawn_flag_iff (sim : SimParams) (p : ParticleP) :
    needsRespawn sim (integrateParticle sim p) ↔
      (p.life - sim.delta_time ≤ 0 ∨
       p.position.y + p.velocity.y * sim.delta_time < sim.despawn_height ∨
       Real.sqrt ((p.position.x + p.velocity.x * sim.delta_time - sim.camera_pos.x) ^ 2 +
         (p.position.z + p.velocity.z * sim.delta_time - sim.camera_pos.z) ^ 2) >
         sim.spawn_radius * 1.5 ∨
       hasNaN (integrateParticle sim p)) := Iff.rfl

/-- C9: the particle step is noninterfering across particles: for equal
parameters and two previous-state buffers that agree at index i, one
simulation dispatch produces equal particles at index i — the output depends
only on the particle's own index, the shared parameters and its own previous
state, never on another particle's state. -/
theorem particle_noninterference (sim : SimParams) (b1 b2 o : ℕ → ParticleP)
    (i : ℕ) (h : b1 i = b2 i) :
    simulateDispatch sim b1 o i = simulateDispatch sim b2 o i := by
  unfold simulateDispatch
  rw [h]

/-- Witness for C9: two buffers that differ at index 0 but agree at index 3
produce the same stepped particle at index 3. -/
theorem particle_noninterference_witness :
    bufEx1 3 = bufEx2 3 ∧
    simulateDispatch simEx bufEx1 bufEx1 3 = simulateDispatch simEx bufEx2 bufEx1 3 :=
  ⟨rfl, particle_noninterference simEx bufEx1 bufEx2 bufEx1 3 rfl⟩

/-- C3: selecting any named preset applies exactly the preset's bundle, except
that the terrain seed and sky seed are replaced by freshly generated values:
reading the settings back yields P.terrain with seed nT, P.sky with seed nS
and P.particles unchanged, and whenever the fresh seed differs from the
preset's fixed seed the read-back seed differs from it too. -/
theorem preset_roundtrip (presetId : String) (P : FullPreset)
    (sT sS nT nS : ℚ) (st : AppState) (hid : presetId ≠ "custom") :
    (selectPreset presetId P sT sS nT nS st).wasmTerrain = { P.terrain with seed := nT } ∧
    (selectPreset presetId P sT sS nT nS st).wasmSky = { P.sky with seed := nS } ∧
    (selectPreset presetId P sT sS nT nS st).wasmParticles = P.particles ∧
    (nT ≠ P.terrain.seed →
      (selectPreset presetId P sT sS nT nS st).wasmTerrain.seed ≠ P.terrain.seed) ∧
    (nS ≠ P.sky.seed →
      (selectPreset presetId P sT sS nT nS st).wasmSky.seed ≠ P.sky.seed) := by
  simp only [selectPreset, if_neg hid]
  exact ⟨trivial, trivial, trivial, fun h => h, fun h => h⟩

/-- Witness for C3 at a concrete preset, state and fresh seeds. -/
theorem preset_roundtrip_witness :
    ("alpine" ≠ "custom") ∧ ((3:ℚ) ≠ 42) ∧
    (selectPreset "alpine" presetEx 1 2 3 4 appStateEx).wasmTerrain =
      { presetEx.terrain with seed := 3 } ∧
    (selectPreset "alpine" presetEx 1 2 3 4 appStateEx).wasmTerrain.seed ≠
      presetEx.terrain.seed :=
  ⟨by decide, by norm_num [presetEx, baseTerrainEx],
   (preset_roundtrip "alpine" presetEx 1 2 3 4 appStateEx (by decide)).1,
   (preset_roundtrip "alpine" presetEx 1 2 3 4 appStateEx (by decide)).2.2.2.1
     (by norm_num [presetEx, baseTerrainEx])⟩

/-- C4: starting from the custom identity in a synced state, selecting a named
preset and then selecting custom again restores the snapshot taken at the
moment the identity left custom: the read-back terrain equals the previous
last-applied terrain up to the freshly generated snapshot seed (so the change
classifier sees no difference), sky likewise, particles exactly; the snapshot
stored while leaving custom is precisely the collect of the pre-switch UI. -/
theorem custom_save_restore (presetId : String) (P Q : FullPreset)
    (sT sS nT nS qa qb qc qd : ℚ) (st : AppState)
    (hid : presetId ≠ "custom") (hcur : st.currentPresetId = "custom")
    (hsync : Synced st) :
    (selectPreset "custom" Q qa qb qc qd
        (selectPreset presetId P sT sS nT nS st)).wasmTerrain =
      { st.lastTerrain with seed := sT } ∧
    (selectPreset "custom" Q qa qb qc qd
        (selectPreset presetId P sT sS nT nS st)).wasmSky =
      { st.lastSky with seed := sS } ∧
    (selectPreset "custom" Q qa qb qc qd
        (selectPreset presetId P sT sS nT nS st)).wasmParticles = st.lastParticles ∧
    categorizeChanges
      (selectPreset "custom" Q qa qb qc qd
        (selectPreset presetId P sT sS nT nS st)).wasmTerrain
      st.lastTerrain = ChangeCategory.none ∧
    (selectPreset presetId P sT sS nT nS st).savedCustom =
      some (collectTerrainSettings st.ui sT st.lastTerrain,
            collectSkySettings st.ui sS st.lastSky,
            collectParticleSettings st.ui st.currentParticleSize st.defaultParticles) := by
  have hsave : (selectPreset presetId P sT sS nT nS st).savedCustom =
      some (collectTerrainSettings st.ui sT st.lastTerrain,
            collectSkySettings st.ui sS st.lastSky,
            collectParticleSettings st.ui st.currentParticleSize st.defaultParticles) := by
    simp [selectPreset, hid, hcur, applyPresetToUI]
  have hT : (selectPreset "custom" Q qa qb qc qd
      (selectPreset presetId P sT sS nT nS st)).wasmTerrain =
      collectTerrainSettings st.ui sT st.lastTerrain := by
    simp [selectPreset, hid, hcur, syncLastAppliedFromUI, applyPresetToUI]
  have hS : (selectPreset "custom" Q qa qb qc qd
      (selectPreset presetId P sT sS nT nS st)).wasmSky =
      collectSkySettings st.ui sS st.lastSky := by
    simp [selectPreset, hid, hcur, syncLastAppliedFromUI, applyPresetToUI]
  have hP : (selectPreset "custom" Q qa qb qc qd
      (selectPreset presetId P sT sS nT nS st)).wasmParticles =
      collectParticleSettings st.ui st.currentParticleSize st.defaultParticles := by
    simp [selectPreset, hid, hcur, syncLastAppliedFromUI, applyPresetToUI]
  have hTX : collectTerrainSettings st.ui sT st.lastTerrain =
      { st.lastTerrain with seed := sT } :=
    ((congrArg (fun t => { t with seed := sT }) hsync.1).trans rfl).symm
  have hSX : collectSkySettings st.ui sS st.lastSky =
      { st.lastSky with seed := sS } :=
    ((congrArg (fun t => { t with seed := sS }) hsync.2.1).trans rfl).symm
  refine ⟨hT.trans hTX, hS.trans hSX, hP.trans hsync.2.2.symm, ?_, hsave⟩
  rw [hT.trans hTX]
  exact categorizeChanges_none_of _ _
    (by intro k hk; fin_cases hk <;> exact numbersEqual_self _)
    (by intro k hk; fin_cases hk <;> exact colorsEqual_self _)

/-- Witness for C4 at a concrete synced custom state, preset and seeds. -/
theorem custom_save_restore_witness :
    ("alpine" ≠ "custom") ∧ appStateEx.currentPresetId = "custom" ∧
    Synced appStateEx ∧
    (selectPreset "custom" presetEx 0 0 0 0
        (selectPreset "alpine" presetEx 11 12 13 14 appStateEx)).wasmTerrain =
      { appStateEx.lastTerrain with seed := 11 } :=
  ⟨by decide, rfl, ⟨rfl, rfl, rfl⟩,
   (custom_save_restore "alpine" presetEx presetEx 11 12 13 14 0 0 0 0 appStateEx
     (by decide) rfl ⟨rfl, rfl, rfl⟩).1⟩

theorem hexDigitVal_hexDigitChar : ∀ n < 16, hexDigitVal (hexDigitChar n) = some n := by
  decide

theorem padStart2_one (c : Char) : padStart2 [c] = ['0', c] := rfl

theorem padStart2_two (c1 c2 : Char) : padStart2 [c1, c2] = [c1, c2] := rfl

theorem natToHexDigits_small (m : ℕ) (h : m < 16) :
    natToHexDigits m = [hexDigitChar m] := by
  rw [natToHexDigits]
  simp [h]

theorem natToHexDigits_byte (m : ℕ) (h16 : 16 ≤ m) (h : m < 256) :
    natToHexDigits m = [hexDigitChar (m / 16), hexDigitChar (m % 16)] := by
  rw [natToHexDigits]
  have hlt : ¬ m < 16 := by omega
  simp only [hlt, dite_false]
  rw [natToHexDigits_small (m / 16) (by omega)]
  rfl

theorem toHex_eq_pair (c : ℚ) (m : ℕ) (hm : jsRound (c * 255) = (m : ℤ))
    (h : m < 256) :
    toHex c = [hexDigitChar (m / 16), hexDigitChar (m % 16)] := by
  unfold toHex
  rw [hm]
  have h0 : ¬ ((m : ℤ) < 0) := by omega
  rw [if_neg h0]
  have htn : ((m : ℤ)).toNat = m := by omega
  rw [htn]
  by_cases h16 : m < 16
  · rw [natToHexDigits_small m h16, padStart2_one]
    have e1 : m / 16 = 0 := by omega
    have e2 : m % 16 = m := by omega
    rw [e1, e2]
    have hzero : hexDigitChar 0 = '0' := by decide
    rw [hzero]
  · rw [natToHexDigits_byte m (by omega) h, padStart2_two]

theorem hexPairVal_hexDigitChar (m : ℕ) (h : m < 256) :
    hexPairVal (hexDigitChar (m / 16)) (hexDigitChar (m % 16)) = some m := by
  unfold hexPairVal
  rw [hexDigitVal_hexDigitChar (m / 16) (by omega),
    hexDigitVal_hexDigitChar (m % 16) (by omega)]
  show some (16 * (m / 16) + m % 16) = some m
  have : 16 * (m / 16) + m % 16 = m := by omega
  rw [this]

theorem hexToRgb_rgbToHex (r g b : ℚ) (mr mg mb : ℕ)
    (hr : jsRound (r * 255) = (mr : ℤ)) (hmr : mr < 256)
    (hg : jsRound (g * 255) = (mg : ℤ)) (hmg : mg < 256)
    (hb : jsRound (b * 255) = (mb : ℤ)) (hmb : mb < 256) :
    hexToRgb (rgbToHex r g b) =
      ((mr : ℚ) / 255, (mg : ℚ) / 255, (mb : ℚ) / 255) := by
  unfold rgbToHex hexToRgb
  rw [toHex_eq_pair r mr hr hmr, toHex_eq_pair g mg hg hmg, toHex_eq_pair b mb hb hmb]
  show parseHex6 (hexDigitChar (mr / 16)) (hexDigitChar (mr % 16))
    (hexDigitChar (mg / 16)) (hexDigitChar (mg % 16))
    (hexDigitChar (mb / 16)) (hexDigitChar (mb % 16)) = _
  unfold parseHex6
  rw [hexPairVal_hexDigitChar mr hmr, hexPairVal_hexDigitChar mg hmg,
    hexPairVal_hexDigitChar mb hmb]

theorem jsRound_byte_bounds (c : ℚ) (h0 : 0 ≤ c) (h1 : c ≤ 1) :
    ∃ m : ℕ, jsRound (c * 255) = (m : ℤ) ∧ m < 256 ∧
      |(m : ℚ) / 255 - c| < COLOR_EPSILON := by
  have hfl : (0:ℤ) ≤ ⌊c * 255 + 1/2⌋ := by
    apply Int.floor_nonneg.mpr
    nlinarith
  have hle : ((⌊c * 255 + 1/2⌋ : ℤ) : ℚ) ≤ c * 255 + 1/2 := Int.floor_le _
  have hgt : c * 255 + 1/2 - 1 < ((⌊c * 255 + 1/2⌋ : ℤ) : ℚ) := Int.sub_one_lt_floor _
  refine ⟨(⌊c * 255 + 1/2⌋).toNat, ?_, ?_, ?_⟩
  · show (⌊c * 255 + 1/2⌋ : ℤ) = _
    omega
  · have hq : ((⌊c * 255 + 1/2⌋ : ℤ) : ℚ) < 256 := by nlinarith
    have hz : (⌊c * 255 + 1/2⌋ : ℤ) < 256 := by exact_mod_cast hq
    omega
  · have hc : (((⌊c * 255 + 1/2⌋).toNat : ℕ) : ℚ) = ((⌊c * 255 + 1/2⌋ : ℤ) : ℚ) := by
      have := Int.toNat_of_nonneg hfl
      exact_mod_cast congrArg (fun z : ℤ => (z : ℚ)) this
    rw [hc, abs_lt, COLOR_EPSILON]
    constructor <;> nlinarith

/-- C10: for every RGB triple with components in [0, 1], converting to a hex
string with rgbToHex and back with hexToRgb moves each component by less than
COLOR_EPSILON, so colorsEqual recognizes the round-tripped color as unchanged
(each channel is quantized to round(c*255)/255, at most 1/510 away from c). -/
theorem hex_color_roundtrip (r g b : ℚ)
    (hr0 : 0 ≤ r) (hr1 : r ≤ 1) (hg0 : 0 ≤ g) (hg1 : g ≤ 1)
    (hb0 : 0 ≤ b) (hb1 : b ≤ 1) :
    colorsEqual (hexToRgb (rgbToHex r g b)) (r, g, b) = true := by
  obtain ⟨mr, hr, hmr, her⟩ := jsRound_byte_bounds r hr0 hr1
  obtain ⟨mg, hg, hmg, heg⟩ := jsRound_byte_bounds g hg0 hg1
  obtain ⟨mb, hb, hmb, heb⟩ := jsRound_byte_bounds b hb0 hb1
  rw [hexToRgb_rgbToHex r g b mr mg mb hr hmr hg hmg hb hmb]
  simp only [colorsEqual, Bool.and_eq_true, decide_eq_true_eq]
  exact ⟨⟨her, heg⟩, heb⟩

/-- Witness for C10 at the concrete triple (1/5, 0, 1). -/
theorem hex_color_roundtrip_witness :
    ((0:ℚ) ≤ 1/5 ∧ (1/5:ℚ) ≤ 1 ∧ (0:ℚ) ≤ 0 ∧ (0:ℚ) ≤ 1 ∧ (0:ℚ) ≤ 1 ∧ (1:ℚ) ≤ 1) ∧
    colorsEqual (hexToRgb (rgbToHex (1/5) 0 1)) (1/5, 0, 1) = true :=
  ⟨⟨by norm_num, by norm_num, le_refl 0, by norm_num, by norm_num, le_refl 1⟩,
   hex_color_roundtrip (1/5) 0 1 (by norm_num) (by norm_num) (le_refl 0)
     (by norm_num) (by norm_num) (le_refl 1)⟩

theorem fractR_nonneg (x : ℝ) : 0 ≤ fractR x := Int.fract_nonneg x

theorem fractR_lt_one (x : ℝ) : fractR x < 1 := Int.fract_lt_one x

theorem hashW_nonneg (p : Vec3R) : 0 ≤ hashW p := by
  unfold hashW
  exact fractR_nonneg _

theorem hashW_lt_one (p : Vec3R) : hashW p < 1 := by
  unfold hashW
  exact fractR_lt_one _

theorem integrateParticle_life (sim : SimParams) (p : ParticleP) :
    (integrateParticle sim p).life = p.life - sim.delta_time := rfl

theorem driftParticle_life (sim : SimParams) (p : ParticleP) :
    (driftParticle sim p).life = p.life := by
  unfold driftParticle
  split <;> rfl

theorem respawn_life_aux (r : ℝ) (h : 0 ≤ r) : 0 < 3 + r * 5 := by linarith

theorem respawn_dist_aux (cx cz a r2 R : ℝ) (h1 : r2 ≤ 1) (hR : 0 ≤ R) :
    Real.sqrt ((cx + Real.cos a * (Real.sqrt r2 * R) - cx) ^ 2 +
               (cz + Real.sin a * (Real.sqrt r2 * R) - cz) ^ 2) ≤ R := by
  have hd0 : 0 ≤ Real.sqrt r2 * R := mul_nonneg (Real.sqrt_nonneg _) hR
  have e1 : cx + Real.cos a * (Real.sqrt r2 * R) - cx = Real.cos a * (Real.sqrt r2 * R) := by
    ring
  have e2 : cz + Real.sin a * (Real.sqrt r2 * R) - cz = Real.sin a * (Real.sqrt r2 * R) := by
    ring
  rw [e1, e2]
  have e3 : (Real.cos a * (Real.sqrt r2 * R)) ^ 2 + (Real.sin a * (Real.sqrt r2 * R)) ^ 2 =
      (Real.sin a ^ 2 + Real.cos a ^ 2) * (Real.sqrt r2 * R) ^ 2 := by
    ring
  rw [e3, Real.sin_sq_add_cos_sq, one_mul, Real.sqrt_sq hd0]
  exact mul_le_of_le_one_left hR (Real.sqrt_le_one.mpr h1)

theorem respawn_y_low (cy H r3 : ℝ) (hH : 0 ≤ H) (h0 : 0 ≤ r3) :
    cy ≤ cy + H * r3 := by nlinarith

theorem respawn_y_high (cy H r3 : ℝ) (hH : 0 ≤ H) (h1 : r3 ≤ 1) :
    cy + H * r3 ≤ cy + H := by nlinarith

/-- C6: for every particle index and parameter set with dt > 0 (and a pool
whose initial life does not exceed the maximum respawned lifetime of 8
seconds): after more than 8 / dt simulation steps the particle has been
flagged for respawn at least once; and immediately after any respawn the
particle's life is positive, its horizontal distance from the camera is at
most spawn_radius, and its height lies within the spawn-height range above
the camera (given nonnegative spawn radius and height). -/
theorem respawn_guarantee (base : SimParams) (ts : ℕ → ℝ) (idx : ℕ)
    (p0 : ParticleP) (n : ℕ)
    (hdt : 0 < base.delta_time) (hlife0 : p0.life ≤ 8)
    (hn : 8 / base.delta_time < (n : ℝ)) :
    (∃ k < n, respawnedAt base ts idx p0 k) ∧
    (∀ (sim : SimParams) (j : ℕ) (p : ParticleP),
      0 ≤ sim.spawn_radius → 0 ≤ sim.spawn_height →
      0 < (respawnParticle sim j p).life ∧
      horizontalDist sim (respawnParticle sim j p) ≤ sim.spawn_radius ∧
      sim.camera_pos.y ≤ (respawnParticle sim j p).position.y ∧
      (respawnParticle sim j p).position.y ≤ sim.camera_pos.y + sim.spawn_height) := by
  constructor
  · by_contra hno
    push_neg at hno
    have hlife : ∀ k, k ≤ n →
        (simulateRun base ts idx p0 k).life = p0.life - k * base.delta_time := by
      intro k
      induction k with
      | zero => intro _; simp [simulateRun]
      | succ m ih =>
        intro hkn
        have hm : m < n := by omega
        have hnr : ¬ needsRespawn { base with time := ts m }
            (integrateParticle { base with time := ts m }
              (simulateRun base ts idx p0 m)) := hno m hm
        have hstep : simulateRun base ts idx p0 (m + 1) =
            driftParticle { base with time := ts m }
              (integrateParticle { base with time := ts m }
                (simulateRun base ts idx p0 m)) := by
          simp [simulateRun, stepParticle, hnr]
        rw [hstep, driftParticle_life, integrateParticle_life, ih (by omega)]
        push_cast
        ring
    have hpos : ∀ k, k < n →
        0 < (simulateRun base ts idx p0 k).life - base.delta_time := by
      intro k hk
      have hnr : ¬ needsRespawn { base with time := ts k }
          (integrateParticle { base with time := ts k }
            (simulateRun base ts idx p0 k)) := hno k hk
      unfold needsRespawn at hnr
      push_neg at hnr
      have h1 := hnr.1
      rw [integrateParticle_life] at h1
      exact h1
    have hn0 : 0 < n := by
      have h8 : (0:ℝ) < 8 / base.delta_time := div_pos (by norm_num) hdt
      have : (0:ℝ) < (n : ℝ) := lt_trans h8 hn
      exact_mod_cast this
    have hlast := hpos (n - 1) (by omega)
    rw [hlife (n - 1) (by omega)] at hlast
    have hcast : ((n - 1 : ℕ) : ℝ) = (n : ℝ) - 1 := by
      have h1 : (1:ℕ) ≤ n := hn0
      push_cast [h1]
      ring
    rw [hcast] at hlast
    have hnd : (8:ℝ) < (n : ℝ) * base.delta_time := (div_lt_iff₀ hdt).mp hn
    nlinarith
  · intro sim j p hR hH
    refine ⟨?_, ?_, ?_, ?_⟩
    · simp only [respawnParticle]
      exact respawn_life_aux _ (hashW_nonneg _)
    · unfold horizontalDist
      simp only [respawnParticle]
      exact respawn_dist_aux _ _ _ _ _ (hashW_lt_one _).le hR
    · simp only [respawnParticle]
      exact respawn_y_low _ _ _ hH (hashW_nonneg _)
    · simp only [respawnParticle]
      exact respawn_y_high _ _ _ hH (hashW_lt_one _).le

/-- Witness for C6: with dt = 1, after 9 > 8 steps the particle has respawned,
and the post-respawn bounds hold. -/
theorem respawn_guarantee_witness :
    (0:ℝ) < simEx2.delta_time ∧ pEx3.life ≤ 8 ∧
    (8:ℝ) / simEx2.delta_time < ((9:ℕ) : ℝ) ∧
    ((∃ k < 9, respawnedAt simEx2 (fun _ => 0) 0 pEx3 k) ∧
     (∀ (sim : SimParams) (j : ℕ) (p : ParticleP),
       0 ≤ sim.spawn_radius → 0 ≤ sim.spawn_height →
       0 < (respawnParticle sim j p).life ∧
       horizontalDist sim (respawnParticle sim j p) ≤ sim.spawn_radius ∧
       sim.camera_pos.y ≤ (respawnParticle sim j p).position.y ∧
       (respawnParticle sim j p).position.y ≤ sim.camera_pos.y + sim.spawn_height)) :=
  ⟨by norm_num [simEx2], by norm_num [pEx3], by norm_num [simEx2],
   respawn_guarantee simEx2 (fun _ => 0) 0 pEx3 9 (by norm_num [simEx2])
     (by norm_num [pEx3]) (by norm_num [simEx2])⟩

/-- C7: for every grid position and every parameter set whose pattern_type is
outside the six enumerated values 0–5, the heightfield compute kernel
produces the base warped-fractal height — the domain-warped fractal-sum
noise scaled by height_scale, the documented fallback — rather than
erroring. -/
theorem pattern_fallback (cp : ComputeParams) (ix iy : ℕ)
    (h : 6 ≤ cp.pattern_type) :
    compute_height cp ix iy = baseWarpedHeight cp ix iy := by
  obtain ⟨k, hk⟩ := Nat.exists_eq_add_of_le h
  rw [Nat.add_comm] at hk
  unfold compute_height baseWarpedHeight
  rw [hk]
  rfl

/-- Witness for C7: pattern_type 7 falls back to the base height. -/
theorem pattern_fallback_witness :
    6 ≤ cpEx.pattern_type ∧ compute_height cpEx 3 4 = baseWarpedHeight cpEx 3 4 :=
  ⟨by decide, pattern_fallback cpEx 3 4 (by decide)⟩

/-- C8 counterexample: the claim says changing the seed changes the number of
terrace steps, but for two parameter sets in the terraced pattern that differ
only in the seed the quantization step count is identical: terrace_count =
6 + 6 * height_variance never reads the seed. -/
theorem terrace_seed_counterexample :
    cpSeedA.seed ≠ cpSeedB.seed ∧
    cpSeedA.height_variance = cpSeedB.height_variance ∧
    cpSeedA.pattern_type = 4 ∧ cpSeedB.pattern_type = 4 ∧
    terraceCount cpSeedA = terraceCount cpSeedB :=
  ⟨by decide, rfl, rfl, rfl, rfl⟩

/-- C8 amended: in the terraced pattern the height is quantized to a step
count that depends on the height variance only (terrace_count =
6 + 6 * height_variance, step size height_scale / terrace_count): any change
of the height variance changes the step count, while the count is the same
for equal variance regardless of the seed. -/
theorem terrace_count_variance (cp1 cp2 : ComputeParams) :
    (cp1.height_variance = cp2.height_variance →
      terraceCount cp1 = terraceCount cp2) ∧
    (cp1.height_variance ≠ cp2.height_variance →
      terraceCount cp1 ≠ terraceCount cp2) := by
  constructor
  · intro h
    unfold terraceCount
    rw [h]
  · intro h hc
    apply h
    unfold terraceCount at hc
    linarith

/-- Witness for C8's amended claim: equal variance with different seeds gives
an equal count; variance 0 versus 1 gives different counts. -/
theorem terrace_count_variance_witness :
    (cpSeedA.height_variance = cpSeedB.height_variance ∧
      terraceCount cpSeedA = terraceCount cpSeedB) ∧
    (cpVarA.height_variance ≠ cpVarB.height_variance ∧
      terraceCount cpVarA ≠ terraceCount cpVarB) :=
  ⟨⟨rfl, (terrace_count_variance cpSeedA cpSeedB).1 rfl⟩,
   ⟨by norm_num [cpVarA, cpVarB, cpSeedA],
    (terrace_count_variance cpVarA cpVarB).2 (by norm_num [cpVarA, cpVarB, cpSeedA])⟩⟩

end PTS
